import Mathlib

/-!
Verification development for the wormhole-connector repository.

The embedding below mirrors `cmd/root.go` (the CLI entrypoint): the flag
variables registered in `init`, the viper-backed configuration store, the
`WormholeConnectorConfig` value built in `runWormholeConnector`, the
`setLogLevel` helper, and the entrypoint's control flow (signal
registration, connector construction, serf/raft setup, the blocking probe,
and the bounded shutdown).  Components of the connector package whose code
is not part of this repository snapshot (the membership/consensus core,
the gossip liveness detector, the running handle's shutdown operation) are
modelled from the specification; each such definition carries a doc
comment saying so.
-/

namespace Wormhole

/-- Log levels of the logrus logger, as used by `setLogLevel`. -/
inductive LogLevel where
  | debug
  | info
  | error
  deriving DecidableEq, Repr

/-- Package-level flag variables registered in `cmd/root.go`'s `init`
(`flagDataDir`, `flagKymaServer`, ..., `flagHttpMode`).  Durations are in
nanoseconds, as Go's `time.Duration`. -/
structure Flags where
  cfgFile : String
  kymaServer : String
  kymaReverseTunnelPort : Int
  timeout : Int
  serfMemberAddrs : String
  serfPort : Int
  raftPort : Int
  localAddr : String
  dataDir : String
  trustCAFile : String
  insecure : Bool
  certFile : String
  keyFile : String
  verbose : Bool
  quiet : Bool
  httpMode : Bool
  deriving DecidableEq, Repr

/-- Default values of the flags, from the `init` function of
`cmd/root.go` (home is the value of `$HOME`). -/
def defaultFlags (home : String) : Flags where
  cfgFile := ""
  kymaServer := "https://localhost:9090"
  kymaReverseTunnelPort := 9091
  timeout := 300000000000
  serfMemberAddrs := ""
  serfPort := 1111
  raftPort := 1112
  localAddr := "127.0.0.1:8080"
  dataDir := home ++ "/.config/wormhole-connector"
  trustCAFile := ""
  insecure := false
  certFile := "connector.pem"
  keyFile := "connector-key.pem"
  verbose := false
  quiet := false
  httpMode := false

/-- Values of the viper configuration store at the keys bound in `init`
and read in `runWormholeConnector` (merged result of flags, environment
and config file; the merge itself is out of scope, the entrypoint only
calls `viper.GetString` and friends on these keys). -/
structure Viper where
  kymaServer : String
  kymaReverseTunnelPort : Int
  raftPort : Int
  localAddr : String
  serfMemberAddrs : String
  serfPort : Int
  timeout : Int
  dataDir : String
  trustCAFile : String
  insecure : Bool
  httpMode : Bool
  certFile : String
  keyFile : String
  deriving DecidableEq, Repr

/-- Fields of `connector.WormholeConnectorConfig` as populated by the
struct literal in `runWormholeConnector` (`cmd/root.go` lines 141-153). -/
structure WormholeConnectorConfig where
  KymaServer : String
  KymaReverseTunnelPort : Int
  RaftPort : Int
  LocalAddr : String
  SerfMemberAddrs : String
  SerfPort : Int
  Timeout : Int
  DataDir : String
  TrustCAFile : String
  Insecure : Bool
  HttpMode : Bool
  deriving DecidableEq, Repr

/-- Construction of the configuration object from the viper store, exactly
the struct literal at the top of `runWormholeConnector`. -/
def mkConfig (v : Viper) : WormholeConnectorConfig where
  KymaServer := v.kymaServer
  KymaReverseTunnelPort := v.kymaReverseTunnelPort
  RaftPort := v.raftPort
  LocalAddr := v.localAddr
  SerfMemberAddrs := v.serfMemberAddrs
  SerfPort := v.serfPort
  Timeout := v.timeout
  DataDir := v.dataDir
  TrustCAFile := v.trustCAFile
  Insecure := v.insecure
  HttpMode := v.httpMode

/-- Result of `setLogLevel` in `cmd/root.go`: `none` models the
`log.Fatal` taken when both flags are set, otherwise the level passed to
`log.SetLevel`. -/
def setLogLevel (verbose quiet : Bool) : Option LogLevel :=
  if verbose && quiet then none
  else if verbose then some .debug
  else if quiet then some .error
  else some .info

/-- Signals of interest for the `signal.Notify` call.  `interrupt` is
`os.Interrupt` (SIGINT). -/
inductive Sig where
  | interrupt
  | sigterm
  | other
  deriving DecidableEq, Repr

/-- Observable steps of `runWormholeConnector`, in program order. -/
inductive Step where
  /-- Evaluation of the `WormholeConnectorConfig` struct literal. -/
  | buildConfig (c : WormholeConnectorConfig)
  /-- `log.SetLevel` inside `setLogLevel`. -/
  | setLevel (l : LogLevel)
  /-- `log.Fatal` (prints and exits the process with a nonzero status). -/
  | fatalLog (msg : String)
  /-- `signal.Notify(term, ...)` on a channel of the given capacity. -/
  | notifySignal (sigs : List Sig) (capacity : Nat)
  /-- The call `connector.NewWormholeConnector(config)`. -/
  | newConnectorCall
  /-- The call `w.ListenAndServe(flagCertFile, flagKeyFile, flagHttpMode)`. -/
  | listenAndServe (certFile keyFile : String) (httpMode : Bool)
  /-- The call `w.SetupSerfRaft()`. -/
  | setupSerfRaftCall
  /-- The call `w.ProbeSerfRaft(term)`, which blocks on the `term` channel. -/
  | probeCall
  /-- `log.Info`. -/
  | infoLog (msg : String)
  /-- The call `w.Shutdown(ctx)` where `ctx` carries the given grace
  deadline in nanoseconds. -/
  | shutdownCall (graceNs : Int)
  /-- `os.Exit(code)`. -/
  | exitCall (code : Nat)
  deriving DecidableEq, Repr

/-- How the entrypoint run ends: a `log.Fatal` exit, a normal `os.Exit`,
or blocked forever inside `ProbeSerfRaft` (no signal, no probe error). -/
inductive RunOutcome where
  | fatalExit
  | exited (code : Nat)
  | blocked
  deriving DecidableEq, Repr

/-- Environment facts about the connector operations whose code is not in
this repository snapshot.  `shutdownErr` is the error value returned by
`w.Shutdown` (its result is discarded by the entrypoint). -/
structure ConnectorEnv where
  tlsMaterialReadable : Bool
  persistedStateReadable : Bool
  probeErr : Option String
  signalReceived : Bool
  shutdownErr : Option String
  deriving DecidableEq, Repr

/-- Modelled from the spec: `connector.NewWormholeConnector` builds the
TLS transport for the dialing role and "fails with a configuration error
when material is unreadable/malformed" (spec section 4.1); its code is
not under this snapshot, only the call site in `cmd/root.go` is. -/
def newWormholeConnector (_c : WormholeConnectorConfig) (env : ConnectorEnv) :
    Except String Unit :=
  if env.tlsMaterialReadable then .ok () else .error "could not load TLS material"

/-- Modelled from the spec: `w.SetupSerfRaft` opens the persisted
consensus/membership state in the data directory; "unreadable persisted
state on disk" is listed among the fatal conditions (spec section 7). -/
def setupSerfRaft (env : ConnectorEnv) : Except String Unit :=
  if env.persistedStateReadable then .ok () else .error "could not read persisted serf/raft state"

/-- Modelled from the spec: `w.ProbeSerfRaft(term)` blocks until the
termination channel fires (then returns `ok`) or an internal error occurs
(then returns that error); `none` means it never returns. -/
def probeSerfRaft (env : ConnectorEnv) : Option (Except String Unit) :=
  match env.probeErr with
  | some e => some (.error e)
  | none => if env.signalReceived then some (.ok ()) else none

/-- The grace deadline of the shutdown context: `5 * time.Second` in
nanoseconds (`cmd/root.go` line 177). -/
def shutdownGraceNs : Int := 5000000000

/-- Shallow embedding of `runWormholeConnector` (`cmd/root.go` lines
140-183): the trace of observable steps and the final outcome, as a
function of the viper store, the package-level flag variables and the
environment facts about the connector calls. -/
def runWormholeConnector (v : Viper) (fl : Flags) (env : ConnectorEnv) :
    List Step × RunOutcome :=
  let config := mkConfig v
  match setLogLevel fl.verbose fl.quiet with
  | none =>
      ([.buildConfig config, .fatalLog "can't set both verbose and quiet flags"], .fatalExit)
  | some lvl =>
      let pre := [Step.buildConfig config, .setLevel lvl,
        .notifySignal [.interrupt] 2, .newConnectorCall]
      match newWormholeConnector config env with
      | .error e => (pre ++ [.fatalLog e], .fatalExit)
      | .ok _ =>
          let pre2 := pre ++
            [Step.listenAndServe fl.certFile fl.keyFile fl.httpMode, .setupSerfRaftCall]
          match setupSerfRaft env with
          | .error e => (pre2 ++ [.fatalLog e], .fatalExit)
          | .ok _ =>
              let pre3 := pre2 ++ [Step.probeCall]
              match probeSerfRaft env with
              | none => (pre3, .blocked)
              | some (.error e) => (pre3 ++ [.fatalLog e], .fatalExit)
              | some (.ok _) =>
                  (pre3 ++ [.infoLog "Shutting down server...",
                    .shutdownCall shutdownGraceNs, .exitCall 0], .exited 0)

/-- Check whether a step is the shutdown call. -/
def isShutdownCall : Step → Bool
  | .shutdownCall _ => true
  | _ => false

/-- Check whether a step is the signal registration. -/
def isNotify : Step → Bool
  | .notifySignal _ _ => true
  | _ => false

/-- Check whether a step is the connector construction call. -/
def isNewConnectorCall : Step → Bool
  | .newConnectorCall => true
  | _ => false

/-- Check whether a step is the serf/raft setup call. -/
def isSetupCall : Step → Bool
  | .setupSerfRaftCall => true
  | _ => false

/-- Check whether a step is the blocking probe call. -/
def isProbeCall : Step → Bool
  | .probeCall => true
  | _ => false

/-- Check whether a step is the construction of the configuration object. -/
def isBuildConfig : Step → Bool
  | .buildConfig _ => true
  | _ => false

/-- Blocking bound of each step: `none` means the step may block without
any deadline, `some d` means it completes or times out within `d`
nanoseconds (immediate steps get `some 0`).  Only the probe, which waits
for the termination signal, is unbounded. -/
def stepDeadline : Step → Option Int
  | .probeCall => none
  | .shutdownCall g => some g
  | _ => some 0

/-- Steps of a trace that come strictly after the blocking probe call. -/
def afterProbe (tr : List Step) : List Step :=
  (tr.dropWhile (fun s => !isProbeCall s)).tail

/-- Arguments the entrypoint hands to `w.ListenAndServe`, extracted from a
trace (first occurrence). -/
def listenArgs : List Step → Option (String × String × Bool)
  | [] => none
  | .listenAndServe c k h :: _ => some (c, k, h)
  | _ :: tr => listenArgs tr

/-- Http-mode value handed to `w.ListenAndServe`, extracted from a trace. -/
def listenHttpMode (tr : List Step) : Option Bool :=
  (listenArgs tr).map fun a => a.2.2

/-- Replace the shutdown-error component of an environment. -/
def withShutdownErr (env : ConnectorEnv) (e : Option String) : ConnectorEnv :=
  { env with shutdownErr := e }

/-- Sample viper store used by concrete witnesses. -/
def sampleViper : Viper where
  kymaServer := "https://kyma.example:9090"
  kymaReverseTunnelPort := 9091
  raftPort := 1112
  localAddr := "127.0.0.1:8080"
  serfMemberAddrs := ""
  serfPort := 1111
  timeout := 300000000000
  dataDir := "/var/lib/wormhole"
  trustCAFile := ""
  insecure := false
  httpMode := false
  certFile := "connector.pem"
  keyFile := "connector-key.pem"

/-- Sample flag values used by concrete witnesses. -/
def sampleFlags : Flags := defaultFlags "/root"

/-- Sample environment where every connector operation succeeds and the
termination signal arrives. -/
def sampleEnvOk : ConnectorEnv where
  tlsMaterialReadable := true
  persistedStateReadable := true
  probeErr := none
  signalReceived := true
  shutdownErr := none

/-- Viper store whose `certFile` and `httpMode` values (for example set
through the config file) disagree with the flag variables: used to exhibit
that the entrypoint hands the flag values, not the configuration object's
values, to the core. -/
def viperMismatch : Viper :=
  { sampleViper with
      httpMode := true
      certFile := "/etc/wormhole-connector/cert-from-config-file.pem" }

/-- Flag values with both `--verbose` and `--quiet` set. -/
def sampleFlagsBothSet : Flags :=
  { sampleFlags with verbose := true, quiet := true }

/-- Environment where the TLS material is unreadable. -/
def sampleEnvTlsBad : ConnectorEnv :=
  { sampleEnvOk with tlsMaterialReadable := false }

/-- Environment where the persisted serf/raft state is unreadable. -/
def sampleEnvStateBad : ConnectorEnv :=
  { sampleEnvOk with persistedStateReadable := false }

/-! ### Port defaults and per-port flags (claim C5) -/

/-- Numeric value of a digit string. -/
def digitsVal (l : List Char) : Nat :=
  l.foldl (fun a c => 10 * a + (c.toNat - 48)) 0

/-- Port of an address string: the run of digits after the last colon
(`none` when the address carries no `:port` suffix). -/
def portOfAddr (s : String) : Option Nat :=
  let rcs := s.toList.reverse
  let ds := rcs.takeWhile fun c => c.isDigit
  match rcs.drop ds.length with
  | ':' :: _ => if ds.isEmpty then none else some (digitsVal ds.reverse)
  | _ => none

/-- The four flags of `init` that carry the tunnel, reverse-tunnel,
gossip and consensus ports. -/
inductive PortFlag where
  | kymaServerFlag
  | reverseTunnelFlag
  | serfPortFlag
  | raftPortFlag
  deriving DecidableEq, Repr

/-- Command-line name each port flag is registered under in `init`. -/
def flagName : PortFlag → String
  | .kymaServerFlag => "kyma-server"
  | .reverseTunnelFlag => "kyma-reverse-tunnel-port"
  | .serfPortFlag => "serf-port"
  | .raftPortFlag => "raft-port"

/-- Viper key each port flag is bound to by `viper.BindPFlag` in `init`. -/
def viperKey : PortFlag → String
  | .kymaServerFlag => "kymaServer"
  | .reverseTunnelFlag => "kymaReverseTunnelPort"
  | .serfPortFlag => "serf.port"
  | .raftPortFlag => "raft.port"

/-- Effect of cobra parsing the `kyma-server` flag: it writes only the
variable the flag was registered on (`StringVar(&flagKymaServer, ...)`). -/
def setKymaServer (f : Flags) (x : String) : Flags :=
  { f with kymaServer := x }

/-- Effect of cobra parsing the `kyma-reverse-tunnel-port` flag. -/
def setKymaReverseTunnelPort (f : Flags) (n : Int) : Flags :=
  { f with kymaReverseTunnelPort := n }

/-- Effect of cobra parsing the `serf-port` flag. -/
def setSerfPort (f : Flags) (n : Int) : Flags :=
  { f with serfPort := n }

/-- Effect of cobra parsing the `raft-port` flag. -/
def setRaftPort (f : Flags) (n : Int) : Flags :=
  { f with raftPort := n }

/-! ### Gossip membership status machine (claim C7)

Modelled from the spec, section 4.4: the gossip/membership code is not
part of this repository snapshot. -/

/-- Membership status of a Peer (spec section 3). -/
inductive PeerStatus where
  | alive
  | suspect
  | dead
  | left
  deriving DecidableEq, Repr

/-- Events of the gossip liveness protocol that drive one Peer's status
(spec section 4.4). -/
inductive GossipEvent where
  /-- The Peer missed the configured number of consecutive probes. -/
  | missedProbes
  /-- The suspicion grace period elapsed without refutation. -/
  | graceExpired
  /-- The Peer refuted the suspicion. -/
  | refute
  /-- The Peer announced voluntary departure. -/
  | depart
  deriving DecidableEq, Repr

/-- Modelled from the spec: one status transition of the gossip
membership protocol ("a Peer moves alive to suspect after missing a
configured number of consecutive probes, suspect to dead after a further
grace period without refutation", refutation moves suspect back to alive,
voluntary departure moves a live Peer to left; dead and left are
terminal). -/
def gossipStep : PeerStatus → GossipEvent → PeerStatus
  | .alive, .missedProbes => .suspect
  | .suspect, .graceExpired => .dead
  | .suspect, .refute => .alive
  | .alive, .depart => .left
  | .suspect, .depart => .left
  | s, _ => s

/-- Status after consuming a sequence of gossip events. -/
def gossipRun (s : PeerStatus) (es : List GossipEvent) : PeerStatus :=
  es.foldl gossipStep s

/-- All statuses visited while consuming a sequence of gossip events,
starting status included. -/
def gossipTrace (s : PeerStatus) : List GossipEvent → List PeerStatus
  | [] => [s]
  | e :: es => s :: gossipTrace (gossipStep s e) es

/-- Pairs (before, after) the status machine is allowed to produce: the
monotone chain alive-suspect-dead, refutation, voluntary departure, and
staying put. -/
def allowedEdge : PeerStatus → PeerStatus → Bool
  | .alive, .alive => true
  | .alive, .suspect => true
  | .alive, .left => true
  | .suspect, .suspect => true
  | .suspect, .dead => true
  | .suspect, .alive => true
  | .suspect, .left => true
  | .dead, .dead => true
  | .left, .left => true
  | _, _ => false

/-! ### The running handle's shutdown operation (claim C6)

Modelled from the spec, sections 4.5 and 6: the connector package's
`Shutdown` is not part of this repository snapshot. -/

/-- Phase of the running handle with respect to shutdown. -/
inductive ShutdownPhase where
  | running
  | inProgress
  | completed
  deriving DecidableEq, Repr

/-- Side effects of the shutdown choreography (spec section 4.5). -/
inductive ShutdownEffect where
  | stopAcceptingSessions
  | drainStreams
  | announceDeparture
  | releaseTransport
  deriving DecidableEq, Repr

/-- Modelled from the spec: a shutdown request on the running handle.  The
first request starts the shutdown choreography; "a second shutdown
request while one is in progress is a no-op", and a request after
completion likewise returns immediately with no side effects. -/
def requestShutdown : ShutdownPhase → ShutdownPhase × List ShutdownEffect
  | .running => (.inProgress,
      [.stopAcceptingSessions, .drainStreams, .announceDeparture, .releaseTransport])
  | .inProgress => (.inProgress, [])
  | .completed => (.completed, [])

/-- Modelled from the spec: completion of an in-progress shutdown. -/
def completeShutdown : ShutdownPhase → ShutdownPhase
  | .inProgress => .completed
  | s => s

/-! ### Membership and consensus core (claim C1)

Modelled from the spec, sections 3 and 4.4: the quorum leader-election
code is not part of this repository snapshot.  Peers are identified by
naturals; `V` is the fixed set of voting-eligible Peers. -/

/-- Role of a Peer in the per-Peer consensus state machine (spec
section 4.4: Follower, Candidate, Leader). -/
inductive Role where
  | follower
  | candidate
  | leader
  deriving DecidableEq, Repr

/-- State of the membership/consensus layer visible to the claims:
per-term votes (a voter's vote in a term is cast at most once and never
retracted), each Peer's role and current term, and the tunnel owner
registered with the Dispatcher together with the term it registered
under. -/
structure ConsensusState where
  votes : Nat → Nat → Option Nat
  role : Nat → Role
  currentTerm : Nat → Nat
  owner : Option (Nat × Nat)

/-- Initial state: no votes cast, everybody a follower at term 0, no
tunnel owner registered. -/
def initialState : ConsensusState where
  votes := fun _ _ => none
  role := fun _ => .follower
  currentTerm := fun _ => 0
  owner := none

/-- Candidate `p` holds a majority of the voting set `V` in term `t`:
strictly more than half of the voters voted for `p` in `t` (spec:
"a leader is elected via majority vote", "Quorum: a majority subset of
voting Peers"). -/
def quorumFor (V : Finset Nat) (votes : Nat → Nat → Option Nat) (t p : Nat) : Prop :=
  V.card < 2 * (V.filter fun r => votes t r = some p).card

/-- Modelled from the spec: the transitions of the membership/consensus
layer.  A voter casts at most one vote per term; a candidate becomes
leader only on a majority of votes in its current term; an election
timeout moves a Peer to candidate at a strictly higher term; a Peer may
step down; "only the Peer holding current leadership may register as
tunnel owner with the Dispatcher" (spec sections 4.2 and 4.4). -/
inductive ConsensusStep (V : Finset Nat) : ConsensusState → ConsensusState → Prop where
  | castVote (s : ConsensusState) (t q p : Nat) (hq : q ∈ V)
      (hnone : s.votes t q = none) :
      ConsensusStep V s
        { s with votes := fun t2 q2 => if t2 = t ∧ q2 = q then some p else s.votes t2 q2 }
  | startElection (s : ConsensusState) (p t : Nat) (ht : s.currentTerm p < t) :
      ConsensusStep V s
        { s with role := fun q => if q = p then .candidate else s.role q,
                 currentTerm := fun q => if q = p then t else s.currentTerm q }
  | becomeLeader (s : ConsensusState) (p : Nat) (hc : s.role p = .candidate)
      (hmaj : quorumFor V s.votes (s.currentTerm p) p) :
      ConsensusStep V s
        { s with role := fun q => if q = p then .leader else s.role q }
  | stepDown (s : ConsensusState) (p : Nat) :
      ConsensusStep V s
        { s with role := fun q => if q = p then .follower else s.role q }
  | registerOwner (s : ConsensusState) (p : Nat) (hl : s.role p = .leader) :
      ConsensusStep V s { s with owner := some (p, s.currentTerm p) }
  | deregisterOwner (s : ConsensusState) :
      ConsensusStep V s { s with owner := none }

/-- States of the membership/consensus layer reachable from the initial
state. -/
inductive ReachableC (V : Finset Nat) : ConsensusState → Prop where
  | start : ReachableC V initialState
  | tail {s s2 : ConsensusState} : ReachableC V s → ConsensusStep V s s2 → ReachableC V s2

/-- Peer `p` observes itself as leader for term `t`. -/
def holdsLeadership (s : ConsensusState) (p t : Nat) : Prop :=
  s.role p = Role.leader ∧ s.currentTerm p = t

/-- Two majorities of the same voting set intersect, and a voter's single
vote per term is for one candidate, so a term has at most one majority
candidate. -/
theorem quorumFor_unique {V : Finset Nat} {votes : Nat → Nat → Option Nat} {t p q : Nat}
    (hp : quorumFor V votes t p) (hq : quorumFor V votes t q) : p = q := by
  classical
  set A := V.filter (fun r => votes t r = some p) with hA
  set B := V.filter (fun r => votes t r = some q) with hB
  have hsub : A ∪ B ⊆ V :=
    Finset.union_subset (Finset.filter_subset _ _) (Finset.filter_subset _ _)
  have hcard : (A ∪ B).card ≤ V.card := Finset.card_le_card hsub
  have hiu : (A ∩ B).card + (A ∪ B).card = A.card + B.card :=
    Finset.card_inter_add_card_union A B
  have hp2 : V.card < 2 * A.card := hp
  have hq2 : V.card < 2 * B.card := hq
  have hint : 0 < (A ∩ B).card := by omega
  obtain ⟨r, hr⟩ := Finset.card_pos.mp hint
  obtain ⟨hrA, hrB⟩ := Finset.mem_inter.mp hr
  have h1 : votes t r = some p := (Finset.mem_filter.mp hrA).2
  have h2 : votes t r = some q := (Finset.mem_filter.mp hrB).2
  exact Option.some.inj (h1.symm.trans h2)

/-- A quorum is stable under vote growth: if every cast vote is preserved
then every majority is preserved. -/
theorem quorumFor_mono {V : Finset Nat} {votes votes2 : Nat → Nat → Option Nat}
    (h : ∀ t r x, votes t r = some x → votes2 t r = some x) {t p : Nat}
    (hm : quorumFor V votes t p) : quorumFor V votes2 t p := by
  classical
  refine lt_of_lt_of_le hm (Nat.mul_le_mul_left 2 (Finset.card_le_card ?_))
  intro r hr
  rw [Finset.mem_filter] at hr ⊢
  exact ⟨hr.1, h _ _ _ hr.2⟩

/-- Inductive invariant of the consensus layer: every current leader, and
every registered tunnel owner at its registration term, is backed by a
majority of the voters in that term. -/
def ConsensusInv (V : Finset Nat) (s : ConsensusState) : Prop :=
  (∀ p, s.role p = Role.leader → quorumFor V s.votes (s.currentTerm p) p) ∧
  (∀ p t, s.owner = some (p, t) → quorumFor V s.votes t p)

/-- The invariant holds in every reachable state. -/
theorem consensusInv_of_reachable {V : Finset Nat} {s : ConsensusState}
    (h : ReachableC V s) : ConsensusInv V s := by
  induction h with
  | start =>
      constructor
      · intro p hp
        simp [initialState] at hp
      · intro p t hp
        simp [initialState] at hp
  | @tail s s2 hreach hstep ih =>
      obtain ⟨ihL, ihO⟩ := ih
      cases hstep with
      | castVote t q p hq hnone =>
          have hpres : ∀ t2 r x, s.votes t2 r = some x →
              (if t2 = t ∧ r = q then some p else s.votes t2 r) = some x := by
            intro t2 r x hx
            by_cases hcase : t2 = t ∧ r = q
            · rw [hcase.1, hcase.2] at hx
              rw [hnone] at hx
              exact absurd hx (by simp)
            · simp [hcase, hx]
          constructor
          · intro p2 hp2
            exact quorumFor_mono hpres (ihL p2 hp2)
          · intro p2 t2 hp2
            exact quorumFor_mono hpres (ihO p2 t2 hp2)
      | startElection p t ht =>
          constructor
          · intro p2 hp2
            have hp2a : (if p2 = p then Role.candidate else s.role p2) = Role.leader := hp2
            show quorumFor V s.votes (if p2 = p then t else s.currentTerm p2) p2
            by_cases hcase : p2 = p
            · rw [if_pos hcase] at hp2a
              exact absurd hp2a (by simp)
            · rw [if_neg hcase] at hp2a
              rw [if_neg hcase]
              exact ihL p2 hp2a
          · intro p2 t2 hp2
            exact ihO p2 t2 hp2
      | becomeLeader p hc hmaj =>
          constructor
          · intro p2 hp2
            have hp2a : (if p2 = p then Role.leader else s.role p2) = Role.leader := hp2
            show quorumFor V s.votes (s.currentTerm p2) p2
            by_cases hcase : p2 = p
            · rw [hcase]
              exact hmaj
            · rw [if_neg hcase] at hp2a
              exact ihL p2 hp2a
          · intro p2 t2 hp2
            exact ihO p2 t2 hp2
      | stepDown p =>
          constructor
          · intro p2 hp2
            have hp2a : (if p2 = p then Role.follower else s.role p2) = Role.leader := hp2
            show quorumFor V s.votes (s.currentTerm p2) p2
            by_cases hcase : p2 = p
            · rw [if_pos hcase] at hp2a
              exact absurd hp2a (by simp)
            · rw [if_neg hcase] at hp2a
              exact ihL p2 hp2a
          · intro p2 t2 hp2
            exact ihO p2 t2 hp2
      | registerOwner p hl =>
          constructor
          · intro p2 hp2
            exact ihL p2 hp2
          · intro p2 t2 hp2
            have hp2a : (some (p, s.currentTerm p) : Option (Nat × Nat)) = some (p2, t2) := hp2
            have hp2b : p = p2 ∧ s.currentTerm p = t2 := by
              have := Option.some.inj hp2a
              exact ⟨congrArg Prod.fst this, congrArg Prod.snd this⟩
            obtain ⟨hpa, hpb⟩ := hp2b
            show quorumFor V s.votes t2 p2
            rw [← hpa, ← hpb]
            exact ihL p hl
      | deregisterOwner =>
          constructor
          · intro p2 hp2
            exact ihL p2 hp2
          · intro p2 t2 hp2
            have hp2a : (none : Option (Nat × Nat)) = some (p2, t2) := hp2
            exact absurd hp2a (by simp)

/-! ### Trace lemmas for the entrypoint -/

/-- With both `--verbose` and `--quiet` set, the run dies inside
`setLogLevel`, right after the configuration object is built. -/
theorem run_both_flags (v : Viper) (fl : Flags) (env : ConnectorEnv)
    (hlog : (fl.verbose && fl.quiet) = true) :
    runWormholeConnector v fl env =
      ([.buildConfig (mkConfig v), .fatalLog "can't set both verbose and quiet flags"],
        .fatalExit) := by
  unfold runWormholeConnector setLogLevel
  rw [hlog]
  simp

/-- With unreadable TLS material the run dies at the connector
construction. -/
theorem run_tls_fail (v : Viper) (fl : Flags) (env : ConnectorEnv)
    (hlog : (fl.verbose && fl.quiet) = false)
    (htls : env.tlsMaterialReadable = false) :
    runWormholeConnector v fl env =
      ([.buildConfig (mkConfig v),
        .setLevel (if fl.verbose then .debug else if fl.quiet then .error else .info),
        .notifySignal [.interrupt] 2, .newConnectorCall,
        .fatalLog "could not load TLS material"], .fatalExit) := by
  unfold runWormholeConnector setLogLevel newWormholeConnector
  cases hv : fl.verbose <;> cases hq : fl.quiet <;> rw [hv, hq] at hlog <;>
    simp_all [htls]

/-- With readable TLS material but unreadable persisted serf/raft state
the run dies at `SetupSerfRaft`. -/
theorem run_state_fail (v : Viper) (fl : Flags) (env : ConnectorEnv)
    (hlog : (fl.verbose && fl.quiet) = false)
    (htls : env.tlsMaterialReadable = true)
    (hstate : env.persistedStateReadable = false) :
    runWormholeConnector v fl env =
      ([.buildConfig (mkConfig v),
        .setLevel (if fl.verbose then .debug else if fl.quiet then .error else .info),
        .notifySignal [.interrupt] 2, .newConnectorCall,
        .listenAndServe fl.certFile fl.keyFile fl.httpMode, .setupSerfRaftCall,
        .fatalLog "could not read persisted serf/raft state"], .fatalExit) := by
  unfold runWormholeConnector setLogLevel newWormholeConnector setupSerfRaft
  cases hv : fl.verbose <;> cases hq : fl.quiet <;> rw [hv, hq] at hlog <;>
    simp_all [htls, hstate]

/-- With a probe error the run dies at `ProbeSerfRaft`. -/
theorem run_probe_fail (v : Viper) (fl : Flags) (env : ConnectorEnv) (e : String)
    (hlog : (fl.verbose && fl.quiet) = false)
    (htls : env.tlsMaterialReadable = true)
    (hstate : env.persistedStateReadable = true)
    (hperr : env.probeErr = some e) :
    runWormholeConnector v fl env =
      ([.buildConfig (mkConfig v),
        .setLevel (if fl.verbose then .debug else if fl.quiet then .error else .info),
        .notifySignal [.interrupt] 2, .newConnectorCall,
        .listenAndServe fl.certFile fl.keyFile fl.httpMode, .setupSerfRaftCall,
        .probeCall, .fatalLog e], .fatalExit) := by
  unfold runWormholeConnector setLogLevel newWormholeConnector setupSerfRaft probeSerfRaft
  cases hv : fl.verbose <;> cases hq : fl.quiet <;> rw [hv, hq] at hlog <;>
    simp_all [htls, hstate, hperr]

/-- With no probe error and no termination signal the run blocks inside
`ProbeSerfRaft`. -/
theorem run_blocked (v : Viper) (fl : Flags) (env : ConnectorEnv)
    (hlog : (fl.verbose && fl.quiet) = false)
    (htls : env.tlsMaterialReadable = true)
    (hstate : env.persistedStateReadable = true)
    (hperr : env.probeErr = none)
    (hsig : env.signalReceived = false) :
    runWormholeConnector v fl env =
      ([.buildConfig (mkConfig v),
        .setLevel (if fl.verbose then .debug else if fl.quiet then .error else .info),
        .notifySignal [.interrupt] 2, .newConnectorCall,
        .listenAndServe fl.certFile fl.keyFile fl.httpMode, .setupSerfRaftCall,
        .probeCall], .blocked) := by
  unfold runWormholeConnector setLogLevel newWormholeConnector setupSerfRaft probeSerfRaft
  cases hv : fl.verbose <;> cases hq : fl.quiet <;> rw [hv, hq] at hlog <;>
    simp_all [htls, hstate, hperr, hsig]

/-- With a successful setup, the termination signal received and a clean
probe return, the run performs the full shutdown sequence and exits with
status 0. -/
theorem run_success (v : Viper) (fl : Flags) (env : ConnectorEnv)
    (hlog : (fl.verbose && fl.quiet) = false)
    (htls : env.tlsMaterialReadable = true)
    (hstate : env.persistedStateReadable = true)
    (hperr : env.probeErr = none)
    (hsig : env.signalReceived = true) :
    runWormholeConnector v fl env =
      ([.buildConfig (mkConfig v),
        .setLevel (if fl.verbose then .debug else if fl.quiet then .error else .info),
        .notifySignal [.interrupt] 2, .newConnectorCall,
        .listenAndServe fl.certFile fl.keyFile fl.httpMode, .setupSerfRaftCall,
        .probeCall, .infoLog "Shutting down server...",
        .shutdownCall shutdownGraceNs, .exitCall 0], .exited 0) := by
  unfold runWormholeConnector setLogLevel newWormholeConnector setupSerfRaft probeSerfRaft
  cases hv : fl.verbose <;> cases hq : fl.quiet <;> rw [hv, hq] at hlog <;>
    simp_all [htls, hstate, hperr, hsig]

/-- Reaching `dead` from any status means the run either started at
`dead` or visited `suspect` on the way. -/
theorem suspect_before_dead (es : List GossipEvent) (s : PeerStatus)
    (h : gossipRun s es = PeerStatus.dead) :
    s = PeerStatus.dead ∨ PeerStatus.suspect ∈ gossipTrace s es := by
  induction es generalizing s with
  | nil =>
      left
      exact h
  | cons e es ih =>
      have h2 : gossipRun (gossipStep s e) es = PeerStatus.dead := h
      rcases ih (gossipStep s e) h2 with hd | hmem
      · have hse : s = PeerStatus.dead ∨ s = PeerStatus.suspect := by
          cases s <;> cases e <;> simp_all [gossipStep]
        rcases hse with hs | hs
        · exact Or.inl hs
        · right
          rw [hs]
          simp [gossipTrace]
      · right
        simp only [gossipTrace]
        exact List.mem_cons_of_mem s hmem

/-! ### Claim theorems -/

/-- C1: in every reachable state of the membership/consensus layer, at
most one Peer holds leadership for any given term; a registered tunnel
owner is backed by a quorum of the voters for its registration term and
coincides with any Peer leading that term; and the Dispatcher's owner
registration is unique, so there are never two simultaneous tunnel
owners. -/
theorem leader_and_owner_unique (V : Finset Nat) (s : ConsensusState)
    (h : ReachableC V s) :
    (∀ t p q, holdsLeadership s p t → holdsLeadership s q t → p = q) ∧
    (∀ p t, s.owner = some (p, t) →
      quorumFor V s.votes t p ∧ ∀ q, holdsLeadership s q t → q = p) ∧
    (∀ p t p2 t2, s.owner = some (p, t) → s.owner = some (p2, t2) →
      p = p2 ∧ t = t2) := by
  obtain ⟨ihL, ihO⟩ := consensusInv_of_reachable h
  refine ⟨?_, ?_, ?_⟩
  · intro t p q hp hq
    have hp2 := ihL p hp.1
    have hq2 := ihL q hq.1
    rw [hp.2] at hp2
    rw [hq.2] at hq2
    exact quorumFor_unique hp2 hq2
  · intro p t hown
    have hq := ihO p t hown
    refine ⟨hq, ?_⟩
    intro q hlq
    have hq2 := ihL q hlq.1
    rw [hlq.2] at hq2
    exact quorumFor_unique hq2 hq
  · intro p t p2 t2 h1 h2
    rw [h1] at h2
    have := Option.some.inj h2
    exact ⟨congrArg Prod.fst this, congrArg Prod.snd this⟩

/-- Witness for C1: the initial state of a three-Peer voting cluster is
reachable and satisfies the uniqueness properties. -/
theorem leader_and_owner_unique_witness :
    (∀ t p q, holdsLeadership initialState p t → holdsLeadership initialState q t → p = q) ∧
    (∀ p t, initialState.owner = some (p, t) →
      quorumFor {0, 1, 2} initialState.votes t p ∧
      ∀ q, holdsLeadership initialState q t → q = p) ∧
    (∀ p t p2 t2, initialState.owner = some (p, t) → initialState.owner = some (p2, t2) →
      p = p2 ∧ t = t2) :=
  leader_and_owner_unique {0, 1, 2} initialState ReachableC.start

/-- C2 counterexample: with a viper store whose `httpMode` value is true
while the flag variable is false, the configuration object records
`HttpMode = true` but the core's `ListenAndServe` is handed `false` — the
value comes from the package-level flag variable, not from the
configuration object. -/
theorem core_inputs_not_all_from_config :
    listenHttpMode (runWormholeConnector viperMismatch sampleFlags sampleEnvOk).1 ≠
      some (mkConfig viperMismatch).HttpMode := by
  decide

/-- C2 (amended): the configuration object is built exactly once from the
viper store, but the TLS certificate path, the TLS key path and the
http-mode value handed to `ListenAndServe` are read from the
package-level flag variables, not from the configuration object. -/
theorem core_inputs_flags_vs_config (v : Viper) (fl : Flags) (env : ConnectorEnv)
    (hlog : (fl.verbose && fl.quiet) = false)
    (htls : env.tlsMaterialReadable = true) :
    listenArgs (runWormholeConnector v fl env).1 =
      some (fl.certFile, fl.keyFile, fl.httpMode) ∧
    (runWormholeConnector v fl env).1.countP isBuildConfig = 1 ∧
    Step.buildConfig (mkConfig v) ∈ (runWormholeConnector v fl env).1 := by
  cases hstate : env.persistedStateReadable
  · rw [run_state_fail v fl env hlog htls hstate]
    refine ⟨rfl, ?_, ?_⟩ <;> simp [isBuildConfig, listenArgs]
  · cases hperr : env.probeErr with
    | some e =>
        rw [run_probe_fail v fl env e hlog htls hstate hperr]
        refine ⟨rfl, ?_, ?_⟩ <;> simp [isBuildConfig, listenArgs]
    | none =>
        cases hsig : env.signalReceived
        · rw [run_blocked v fl env hlog htls hstate hperr hsig]
          refine ⟨rfl, ?_, ?_⟩ <;> simp [isBuildConfig, listenArgs]
        · rw [run_success v fl env hlog htls hstate hperr hsig]
          refine ⟨rfl, ?_, ?_⟩ <;> simp [isBuildConfig, listenArgs]

/-- Witness for C2 (amended) at concrete inputs. -/
theorem core_inputs_flags_vs_config_witness :
    listenArgs (runWormholeConnector viperMismatch sampleFlags sampleEnvOk).1 =
      some (sampleFlags.certFile, sampleFlags.keyFile, sampleFlags.httpMode) ∧
    (runWormholeConnector viperMismatch sampleFlags sampleEnvOk).1.countP isBuildConfig = 1 ∧
    Step.buildConfig (mkConfig viperMismatch) ∈
      (runWormholeConnector viperMismatch sampleFlags sampleEnvOk).1 :=
  core_inputs_flags_vs_config viperMismatch sampleFlags sampleEnvOk rfl rfl

/-- C3: when the TLS material or the persisted serf/raft state is
unreadable, the entrypoint terminates the process fatally at startup —
it never reaches `os.Exit(0)` and it does not retry the failed
operation (each startup call appears at most once in the trace). -/
theorem config_error_fatal (v : Viper) (fl : Flags) (env : ConnectorEnv)
    (hlog : (fl.verbose && fl.quiet) = false)
    (hbad : env.tlsMaterialReadable = false ∨ env.persistedStateReadable = false) :
    (runWormholeConnector v fl env).2 = RunOutcome.fatalExit ∧
    Step.exitCall 0 ∉ (runWormholeConnector v fl env).1 ∧
    (runWormholeConnector v fl env).1.countP isNewConnectorCall ≤ 1 ∧
    (runWormholeConnector v fl env).1.countP isSetupCall ≤ 1 := by
  cases htls : env.tlsMaterialReadable
  · rw [run_tls_fail v fl env hlog htls]
    refine ⟨rfl, ?_, ?_, ?_⟩ <;> simp [isNewConnectorCall, isSetupCall]
  · have hstate : env.persistedStateReadable = false := by
      rcases hbad with hb | hb
      · rw [htls] at hb
        exact absurd hb (by simp)
      · exact hb
    rw [run_state_fail v fl env hlog htls hstate]
    refine ⟨rfl, ?_, ?_, ?_⟩ <;> simp [isNewConnectorCall, isSetupCall]

/-- Witness for C3 at concrete inputs with unreadable TLS material. -/
theorem config_error_fatal_witness :
    (runWormholeConnector sampleViper sampleFlags sampleEnvTlsBad).2 = RunOutcome.fatalExit ∧
    Step.exitCall 0 ∉ (runWormholeConnector sampleViper sampleFlags sampleEnvTlsBad).1 ∧
    (runWormholeConnector sampleViper sampleFlags sampleEnvTlsBad).1.countP
      isNewConnectorCall ≤ 1 ∧
    (runWormholeConnector sampleViper sampleFlags sampleEnvTlsBad).1.countP isSetupCall ≤ 1 :=
  config_error_fatal sampleViper sampleFlags sampleEnvTlsBad rfl (Or.inl rfl)

/-- C4: once the termination signal is received the blocking probe
returns, the run exits with status 0 after invoking the handle's shutdown
exactly once under the 5-second grace deadline, and every step after the
probe — the only unbounded wait — carries a finite deadline. -/
theorem signal_then_bounded_shutdown (v : Viper) (fl : Flags) (env : ConnectorEnv)
    (hlog : (fl.verbose && fl.quiet) = false)
    (htls : env.tlsMaterialReadable = true)
    (hstate : env.persistedStateReadable = true)
    (hperr : env.probeErr = none)
    (hsig : env.signalReceived = true) :
    (runWormholeConnector v fl env).2 = RunOutcome.exited 0 ∧
    (runWormholeConnector v fl env).1.countP isShutdownCall = 1 ∧
    Step.shutdownCall 5000000000 ∈ (runWormholeConnector v fl env).1 ∧
    afterProbe (runWormholeConnector v fl env).1 =
      [Step.infoLog "Shutting down server...", Step.shutdownCall shutdownGraceNs,
        Step.exitCall 0] ∧
    (∀ s ∈ afterProbe (runWormholeConnector v fl env).1, stepDeadline s ≠ none) := by
  rw [run_success v fl env hlog htls hstate hperr hsig]
  refine ⟨rfl, ?_, ?_, ?_, ?_⟩
  · simp [isShutdownCall]
  · simp [shutdownGraceNs]
  · simp [afterProbe, isProbeCall, List.dropWhile]
  · simp [afterProbe, isProbeCall, List.dropWhile, stepDeadline]

/-- Witness for C4 at concrete inputs. -/
theorem signal_then_bounded_shutdown_witness :
    (runWormholeConnector sampleViper sampleFlags sampleEnvOk).2 = RunOutcome.exited 0 ∧
    (runWormholeConnector sampleViper sampleFlags sampleEnvOk).1.countP isShutdownCall = 1 ∧
    Step.shutdownCall 5000000000 ∈ (runWormholeConnector sampleViper sampleFlags sampleEnvOk).1 ∧
    afterProbe (runWormholeConnector sampleViper sampleFlags sampleEnvOk).1 =
      [Step.infoLog "Shutting down server...", Step.shutdownCall shutdownGraceNs,
        Step.exitCall 0] ∧
    (∀ s ∈ afterProbe (runWormholeConnector sampleViper sampleFlags sampleEnvOk).1,
      stepDeadline s ≠ none) :=
  signal_then_bounded_shutdown sampleViper sampleFlags sampleEnvOk rfl rfl rfl rfl rfl

/-- C5: the default ports are tunnel 9090 (inside the default
`kyma-server` address), reverse tunnel 9091, serf 1111 and raft 1112;
the four ports sit behind four distinct flag names and four distinct
viper keys, and setting any one of them leaves the other three
untouched. -/
theorem default_ports_and_independence :
    (∀ home : String,
      portOfAddr (defaultFlags home).kymaServer = some 9090 ∧
      (defaultFlags home).kymaReverseTunnelPort = 9091 ∧
      (defaultFlags home).serfPort = 1111 ∧
      (defaultFlags home).raftPort = 1112) ∧
    [flagName .kymaServerFlag, flagName .reverseTunnelFlag,
      flagName .serfPortFlag, flagName .raftPortFlag].Nodup ∧
    [viperKey .kymaServerFlag, viperKey .reverseTunnelFlag,
      viperKey .serfPortFlag, viperKey .raftPortFlag].Nodup ∧
    (∀ (f : Flags) (x : String),
      (setKymaServer f x).kymaServer = x ∧
      (setKymaServer f x).kymaReverseTunnelPort = f.kymaReverseTunnelPort ∧
      (setKymaServer f x).serfPort = f.serfPort ∧
      (setKymaServer f x).raftPort = f.raftPort) ∧
    (∀ (f : Flags) (n : Int),
      (setKymaReverseTunnelPort f n).kymaReverseTunnelPort = n ∧
      (setKymaReverseTunnelPort f n).kymaServer = f.kymaServer ∧
      (setKymaReverseTunnelPort f n).serfPort = f.serfPort ∧
      (setKymaReverseTunnelPort f n).raftPort = f.raftPort) ∧
    (∀ (f : Flags) (n : Int),
      (setSerfPort f n).serfPort = n ∧
      (setSerfPort f n).kymaServer = f.kymaServer ∧
      (setSerfPort f n).kymaReverseTunnelPort = f.kymaReverseTunnelPort ∧
      (setSerfPort f n).raftPort = f.raftPort) ∧
    (∀ (f : Flags) (n : Int),
      (setRaftPort f n).raftPort = n ∧
      (setRaftPort f n).kymaServer = f.kymaServer ∧
      (setRaftPort f n).kymaReverseTunnelPort = f.kymaReverseTunnelPort ∧
      (setRaftPort f n).serfPort = f.serfPort) := by
  refine ⟨?_, ?_, ?_, ?_, ?_, ?_, ?_⟩
  · intro home
    refine ⟨?_, rfl, rfl, rfl⟩
    show portOfAddr "https://localhost:9090" = some 9090
    decide
  · decide
  · decide
  · intro f x
    exact ⟨rfl, rfl, rfl, rfl⟩
  · intro f n
    exact ⟨rfl, rfl, rfl, rfl⟩
  · intro f n
    exact ⟨rfl, rfl, rfl, rfl⟩
  · intro f n
    exact ⟨rfl, rfl, rfl, rfl⟩

/-- C6: the running handle's shutdown is idempotent — a second request
while the first is in progress, or after it has completed, returns the
unchanged state and produces no side effects. -/
theorem shutdown_idempotent (s : ShutdownPhase) :
    requestShutdown (requestShutdown s).1 = ((requestShutdown s).1, []) ∧
    requestShutdown (completeShutdown (requestShutdown s).1) =
      (completeShutdown (requestShutdown s).1, []) := by
  cases s <;> exact ⟨rfl, rfl⟩

/-- C7: every status transition of the gossip machine follows the
alive-suspect-dead chain (with refutation and voluntary departure as the
only exceptions), and a Peer starting alive reaches `dead` only after
having been `suspect`. -/
theorem status_dead_only_after_suspect :
    (∀ s e, allowedEdge s (gossipStep s e) = true) ∧
    (∀ es : List GossipEvent, gossipRun PeerStatus.alive es = PeerStatus.dead →
      PeerStatus.suspect ∈ gossipTrace PeerStatus.alive es) := by
  constructor
  · intro s e
    cases s <;> cases e <;> rfl
  · intro es h
    rcases suspect_before_dead es PeerStatus.alive h with hd | hm
    · exact absurd hd (by decide)
    · exact hm

/-- Witness for C7: two missed-probe/grace events take an alive Peer to
dead through suspect. -/
theorem status_dead_only_after_suspect_witness :
    PeerStatus.suspect ∈
      gossipTrace PeerStatus.alive [GossipEvent.missedProbes, GossipEvent.graceExpired] :=
  status_dead_only_after_suspect.2
    [GossipEvent.missedProbes, GossipEvent.graceExpired] (by decide)

/-- C8: `setLogLevel` exits the process fatally when both the verbose and
quiet flags are set — after the configuration object is built and before
the connector is constructed — and otherwise selects Debug for verbose,
Error for quiet, Info for neither. -/
theorem verbose_quiet_conflict (v : Viper) (fl : Flags) (env : ConnectorEnv) :
    (setLogLevel true true = none ∧
      setLogLevel true false = some LogLevel.debug ∧
      setLogLevel false true = some LogLevel.error ∧
      setLogLevel false false = some LogLevel.info) ∧
    ((fl.verbose && fl.quiet) = true →
      (runWormholeConnector v fl env).1 =
        [Step.buildConfig (mkConfig v),
          Step.fatalLog "can't set both verbose and quiet flags"] ∧
      (runWormholeConnector v fl env).2 = RunOutcome.fatalExit ∧
      Step.newConnectorCall ∉ (runWormholeConnector v fl env).1) := by
  refine ⟨⟨rfl, rfl, rfl, rfl⟩, ?_⟩
  intro hlog
  rw [run_both_flags v fl env hlog]
  exact ⟨rfl, rfl, by simp⟩

/-- Witness for C8 at concrete inputs with both flags set. -/
theorem verbose_quiet_conflict_witness :
    (setLogLevel true true = none ∧
      setLogLevel true false = some LogLevel.debug ∧
      setLogLevel false true = some LogLevel.error ∧
      setLogLevel false false = some LogLevel.info) ∧
    (runWormholeConnector sampleViper sampleFlagsBothSet sampleEnvOk).1 =
      [Step.buildConfig (mkConfig sampleViper),
        Step.fatalLog "can't set both verbose and quiet flags"] ∧
    (runWormholeConnector sampleViper sampleFlagsBothSet sampleEnvOk).2 =
      RunOutcome.fatalExit ∧
    Step.newConnectorCall ∉ (runWormholeConnector sampleViper sampleFlagsBothSet sampleEnvOk).1 :=
  ⟨(verbose_quiet_conflict sampleViper sampleFlagsBothSet sampleEnvOk).1,
    (verbose_quiet_conflict sampleViper sampleFlagsBothSet sampleEnvOk).2 rfl⟩

/-- C9: whenever the run reaches the shutdown step (witnessed by the
"Shutting down server..." log), it exits with status 0, and the run is
entirely independent of the error value the handle's shutdown operation
returns — that error is discarded. -/
theorem exit_zero_after_shutdown (v : Viper) (fl : Flags) (env : ConnectorEnv)
    (hreach : Step.infoLog "Shutting down server..." ∈ (runWormholeConnector v fl env).1) :
    (runWormholeConnector v fl env).2 = RunOutcome.exited 0 ∧
    (∀ e, runWormholeConnector v fl (withShutdownErr env e) = runWormholeConnector v fl env) := by
  constructor
  · cases hlog : (fl.verbose && fl.quiet) with
    | true =>
        rw [run_both_flags v fl env hlog] at hreach ⊢
        simp at hreach
    | false =>
        cases htls : env.tlsMaterialReadable
        · rw [run_tls_fail v fl env hlog htls] at hreach ⊢
          simp at hreach
        · cases hstate : env.persistedStateReadable
          · rw [run_state_fail v fl env hlog htls hstate] at hreach ⊢
            simp at hreach
          · cases hperr : env.probeErr with
            | some e =>
                rw [run_probe_fail v fl env e hlog htls hstate hperr] at hreach ⊢
                simp at hreach
            | none =>
                cases hsig : env.signalReceived
                · rw [run_blocked v fl env hlog htls hstate hperr hsig] at hreach ⊢
                  simp at hreach
                · rw [run_success v fl env hlog htls hstate hperr hsig]
  · intro e
    cases env
    rfl

/-- Witness for C9 at concrete inputs. -/
theorem exit_zero_after_shutdown_witness :
    (runWormholeConnector sampleViper sampleFlags sampleEnvOk).2 = RunOutcome.exited 0 ∧
    (∀ e, runWormholeConnector sampleViper sampleFlags (withShutdownErr sampleEnvOk e) =
      runWormholeConnector sampleViper sampleFlags sampleEnvOk) :=
  exit_zero_after_shutdown sampleViper sampleFlags sampleEnvOk (by decide)

/-- C10: the termination channel is registered exactly once, for
`os.Interrupt` (SIGINT) only, on a channel of capacity 2; SIGTERM is not
subscribed. -/
theorem signal_registration_sigint_only (v : Viper) (fl : Flags) (env : ConnectorEnv)
    (hlog : (fl.verbose && fl.quiet) = false) :
    (runWormholeConnector v fl env).1.filter isNotify =
      [Step.notifySignal [Sig.interrupt] 2] ∧
    (∀ sigs cap, Step.notifySignal sigs cap ∈ (runWormholeConnector v fl env).1 →
      sigs = [Sig.interrupt] ∧ cap = 2 ∧ Sig.sigterm ∉ sigs) := by
  cases htls : env.tlsMaterialReadable
  · rw [run_tls_fail v fl env hlog htls]
    constructor
    · simp [isNotify]
    · intro sigs cap hmem
      simp at hmem
      exact ⟨hmem.1, hmem.2, by rw [hmem.1]; decide⟩
  · cases hstate : env.persistedStateReadable
    · rw [run_state_fail v fl env hlog htls hstate]
      constructor
      · simp [isNotify]
      · intro sigs cap hmem
        simp at hmem
        exact ⟨hmem.1, hmem.2, by rw [hmem.1]; decide⟩
    · cases hperr : env.probeErr with
      | some e =>
          rw [run_probe_fail v fl env e hlog htls hstate hperr]
          constructor
          · simp [isNotify]
          · intro sigs cap hmem
            simp at hmem
            exact ⟨hmem.1, hmem.2, by rw [hmem.1]; decide⟩
      | none =>
          cases hsig : env.signalReceived
          · rw [run_blocked v fl env hlog htls hstate hperr hsig]
            constructor
            · simp [isNotify]
            · intro sigs cap hmem
              simp at hmem
              exact ⟨hmem.1, hmem.2, by rw [hmem.1]; decide⟩
          · rw [run_success v fl env hlog htls hstate hperr hsig]
            constructor
            · simp [isNotify]
            · intro sigs cap hmem
              simp at hmem
              exact ⟨hmem.1, hmem.2, by rw [hmem.1]; decide⟩

/-- Witness for C10 at concrete inputs. -/
theorem signal_registration_sigint_only_witness :
    (runWormholeConnector sampleViper sampleFlags sampleEnvOk).1.filter isNotify =
      [Step.notifySignal [Sig.interrupt] 2] ∧
    (∀ sigs cap,
      Step.notifySignal sigs cap ∈ (runWormholeConnector sampleViper sampleFlags sampleEnvOk).1 →
      sigs = [Sig.interrupt] ∧ cap = 2 ∧ Sig.sigterm ∉ sigs) :=
  signal_registration_sigint_only sampleViper sampleFlags sampleEnvOk rfl

end Wormhole
